import Mathlib

/-!
Shallow embedding of the routing core of the Odyssey PostgreSQL connection
pooler (`src/sources/router.c`), together with proofs about the behaviour of
its operations.

The router state is modelled functionally: the two-level locking discipline
of the C source serialises every operation, so each operation is embedded as
a pure function from the router state (plus its explicit arguments) to a new
router state and a result.  The helper pools (`od_client_pool`,
`od_server_pool`, `od_route_pool`) and the rule table (`od_rules`) are not
part of the provided sources; their operations are modelled from the spec
(sections 4.1 - 4.5), as noted on each definition.
-/

namespace Odyssey

/-- Router status codes, from the `od_router_status_t` enum. -/
inductive RouterStatus where
  | ok
  | error
  | errorNotFound
  | errorLimit
  | errorLimitRoute
  deriving DecidableEq, Repr

/-- Client pool states (`OD_CLIENT_*`). -/
inductive ClientState where
  | undef
  | pending
  | active
  | queue
  deriving DecidableEq, Repr

/-- Server pool states (`OD_SERVER_*`).  The states `connect`, `reset` and
`expireSt` are owned by the backend driver and opaque to the router. -/
inductive ServerState where
  | undef
  | idle
  | active
  | connect
  | reset
  | expireSt
  deriving DecidableEq, Repr

/-- A backend server as the router observes it: id, pool state, idle tick
counter, forged wire keys and the last client id.  Wire keys are modelled as
naturals compared for equality (`kiwi_key_cmp`). -/
structure Server where
  id : Nat
  state : ServerState
  idle_time : Nat
  key : Nat
  key_client : Nat
  last_client_id : Nat
  client : Option Nat
  deriving DecidableEq, Repr

/-- A routing rule (`od_rule_t`), with its selector `(db, user)`, the
admission / pooling configuration, and its reference count.  The field
`storage_copy_ok` models whether `od_rules_storage_copy` on this rule's
storage descriptor succeeds (it can fail on allocation). -/
structure Rule where
  db : String
  user : String
  obsolete : Bool
  pool_size : Nat
  pool_ttl : Nat
  client_max_set : Bool
  client_max : Nat
  storage_db : Option String
  storage_user : Option String
  storage_copy_ok : Bool
  refcount : Nat
  deriving DecidableEq, Repr

/-- A route id (`od_route_id_t`): the pair of database and user byte strings.
Two ids compare equal iff both strings match exactly. -/
structure RouteId where
  database : String
  user : String
  deriving DecidableEq, Repr

/-- A route (`od_route_t`): its id, the index of its rule in the router's
rule list (rule identity in the C source is the rule pointer), the dynamic
flag, and its client and server pools.  A pool holds exactly its members:
setting an entity to the `undef` state removes it from the pool. -/
structure Route where
  id : RouteId
  rule : Nat
  isDynamic : Bool
  clientPool : List (Nat × ClientState)
  serverPool : List Server
  deriving DecidableEq, Repr

/-- A client as the router observes it (`od_client_t`): startup parameters,
wire key, id, and the fields the router mutates.  A routed client's `route`
field holds the `(RouteId, rule index)` pair that identifies its route. -/
structure Client where
  id : Nat
  key : Nat
  db : String
  user : String
  rule : Option Nat
  route : Option (RouteId × Nat)
  server : Option Nat
  state : ClientState
  deriving DecidableEq, Repr

/-- The router (`od_router_t`): the ordered rule list, the route pool, and
the global count of currently-routed clients. -/
structure RouterState where
  rules : List Rule
  routes : List Route
  clients : Nat
  deriving DecidableEq, Repr

/-- Router-facing configuration (`od_config_t`). -/
structure Config where
  client_max_set : Bool
  client_max : Nat
  packet_read_size : Nat
  is_multi_workers : Bool
  deriving DecidableEq, Repr

/-! ### Pool and rule-table operations

Modelled from the spec where the implementation is not in the sources. -/

/-- Modelled from the spec: `od_client_pool_total` — the number of clients
currently in the pool (section 4.2: per-state multisets; an entity set to
`undef` is removed, so the pool's total is its length). -/
def clientPoolTotal (pool : List (Nat × ClientState)) : Nat :=
  pool.length

/-- Modelled from the spec: `od_server_pool_total` — the number of servers
currently in the pool. -/
def serverPoolTotal (pool : List Server) : Nat :=
  pool.length

/-- Modelled from the spec: `od_client_pool_set` — atomic move of a client
between state sets; `undef` means remove (section 4.2). -/
def clientPoolSet (pool : List (Nat × ClientState)) (cid : Nat)
    (st : ClientState) : List (Nat × ClientState) :=
  match st with
  | ClientState.undef => pool.filter (fun e => e.1 ≠ cid)
  | s =>
    if (pool.filter (fun e => e.1 = cid)).isEmpty then
      pool ++ [(cid, s)]
    else
      pool.map (fun e => if e.1 = cid then (e.1, s) else e)

/-- Modelled from the spec: `od_server_pool_set` — atomic move of a server
between state sets; `undef` means remove, and a server not yet in the pool
is inserted (sections 4.2 - 4.3).  The server record is passed whole because
the C pool holds the very object whose fields the caller mutates. -/
def serverPoolSet (pool : List Server) (sv : Server)
    (st : ServerState) : List Server :=
  match st with
  | ServerState.undef => pool.filter (fun s => s.id ≠ sv.id)
  | s =>
    if pool.any (fun x => x.id = sv.id) then
      pool.map (fun x => if x.id = sv.id then { sv with state := s } else x)
    else
      pool ++ [{ sv with state := s }]

/-- Modelled from the spec: `od_server_pool_next` — the first server of the
pool in the given state (section 4.3). -/
def serverPoolNext (pool : List Server) (st : ServerState) : Option Server :=
  pool.find? (fun s => s.state = st)

/-- Modelled from the spec: `od_rules_forward` — first-match against the
ordered configured rules for the `(db, user)` pair, returning the rule's
index (rule identity), or `none` (section 4.1). -/
def rulesForward (rules : List Rule) (db user : String) : Option Nat :=
  (rules.findIdx? (fun r => r.db = db ∧ r.user = user))

/-- Modelled from the spec: `od_rules_ref` — increment the refcount of the
rule at the given index (section 4.1). -/
def rulesRef (rules : List Rule) (i : Nat) : List Rule :=
  rules.modify (fun r => { r with refcount := r.refcount + 1 }) i

/-- Modelled from the spec: `od_rules_unref` — decrement the refcount of the
rule at the given index (section 4.1; freeing on zero is not observable in
this model). -/
def rulesUnref (rules : List Rule) (i : Nat) : List Rule :=
  rules.modify (fun r => { r with refcount := r.refcount - 1 }) i

/-- Modelled from the spec: `od_route_pool_match` — the existing route whose
`(id, rule)` pair matches exactly (section 4.4). -/
def routePoolMatch (routes : List Route) (id : RouteId) (rule : Nat) :
    Option Route :=
  routes.find? (fun rt => rt.id = id ∧ rt.rule = rule)

/-- Modelled from the spec: `od_route_pool_new` — allocate and insert a new
route, marked dynamic, with empty pools (section 4.4).  Allocation is
modelled as always succeeding, so the `route == NULL` branch of
`od_router_route` is unreachable in this model. -/
def routePoolNew (routes : List Route) (id : RouteId) (rule : Nat) :
    List Route :=
  routes ++ [{ id := id, rule := rule, isDynamic := true,
               clientPool := [], serverPool := [] }]

/-- Update (in place) the route of the pool identified by `(id, rule)`. -/
def routePoolUpdate (routes : List Route) (id : RouteId) (rule : Nat)
    (f : Route → Route) : List Route :=
  routes.map (fun rt => if rt.id = id ∧ rt.rule = rule then f rt else rt)

/-- The route `od_router_route` operates on: the matched existing route, or
the fresh dynamic route `od_route_pool_new` would insert. -/
def routeMatchOrNew (routes : List Route) (id : RouteId) (rule : Nat) :
    Route :=
  match routePoolMatch routes id rule with
  | some rt => rt
  | none => { id := id, rule := rule, isDynamic := true,
              clientPool := [], serverPool := [] }

/-! ### `od_router_route` -/

/-- The route id built by `od_router_route` from the client's startup
parameters, with the rule's `storage_db` / `storage_user` overrides applied
(router.c lines 223-236). -/
def routeBuildId (rule : Rule) (client : Client) : RouteId :=
  { database := rule.storage_db.getD client.db
    user := rule.storage_user.getD client.user }

/-- Embedding of `od_router_route` (router.c lines 201-278): classify the
client against the rule table, enforce the global and per-route admission
caps, match or create the route, and insert the client as `pending`.
Returns the status, the updated router state and the updated client. -/
def od_router_route (config : Config) (router : RouterState)
    (client : Client) : RouterStatus × RouterState × Client :=
  match rulesForward router.rules client.db client.user with
  | none => (RouterStatus.errorNotFound, router, client)
  | some ri =>
    match router.rules[ri]? with
    | none => (RouterStatus.error, router, client)
    | some rule =>
      let id := routeBuildId rule client
      if config.client_max_set ∧ router.clients ≥ config.client_max then
        (RouterStatus.errorLimit, router, client)
      else
        let routes1 :=
          match routePoolMatch router.routes id ri with
          | some _ => router.routes
          | none => routePoolNew router.routes id ri
        let route := routeMatchOrNew router.routes id ri
        let rules1 := rulesRef router.rules ri
        if rule.client_max_set ∧
            clientPoolTotal route.clientPool ≥ rule.client_max then
          (RouterStatus.errorLimitRoute,
           { router with routes := routes1,
                         rules := rulesUnref rules1 ri },
           client)
        else
          let routes2 := routePoolUpdate routes1 id ri
            (fun rt =>
              { rt with clientPool :=
                  clientPoolSet rt.clientPool client.id ClientState.pending })
          (RouterStatus.ok,
           { router with routes := routes2, rules := rules1,
                         clients := router.clients + 1 },
           { client with rule := some ri, route := some (id, ri),
                         state := ClientState.pending })

/-! ### `od_router_unroute` -/

/-- Embedding of `od_router_unroute` (router.c lines 280-297).  The C
assertions (`client->route`, `client->server == NULL`,
`router->clients > 0`) are modelled by returning `none`; a dangling
`client->route` pointer (no such route in the pool) is likewise `none`. -/
def od_router_unroute (router : RouterState) (client : Client) :
    Option (RouterState × Client) :=
  match client.route with
  | none => none
  | some (id, ri) =>
    if client.server ≠ none then
      none
    else if router.clients = 0 then
      none
    else
      match routePoolMatch router.routes id ri with
      | none => none
      | some _ =>
        let routes1 := routePoolUpdate router.routes id ri
          (fun rt =>
            { rt with clientPool :=
                clientPoolSet rt.clientPool client.id ClientState.undef })
        some
          ({ router with routes := routes1, clients := router.clients - 1 },
           { client with route := none, state := ClientState.undef })

/-! ### `od_router_attach` -/

/-- The server-search loop of `od_router_attach` (router.c lines 311-326),
indexed by fuel.  One iteration asks the pool for an idle server; if none
exists and `pool_size == 0` it breaks out to allocate a new server, and
otherwise the loop body ends without breaking (the enqueue code is
compiled out under `#if 0`) and the loop re-runs on the unchanged pool.
`some (some s)` is a found idle server, `some none` is the break, and
`none` means the given fuel was exhausted without either. -/
def attachSearch (rule : Rule) (pool : List Server) :
    Nat → Option (Option Server)
  | 0 => none
  | fuel + 1 =>
    match serverPoolNext pool ServerState.idle with
    | some s => some (some s)
    | none =>
      if rule.pool_size = 0 then
        some none
      else
        attachSearch rule pool fuel

/-- A freshly allocated server object (`od_server_allocate` followed by
`od_id_mgr_generate`): all fields zeroed, the generated id assigned. -/
def freshServer (newId : Nat) : Server :=
  { id := newId, state := ServerState.undef, idle_time := 0, key := 0,
    key_client := 0, last_client_id := 0, client := none }

/-- Embedding of `od_router_attach` (router.c lines 299-359): search the
route's pool for an idle server, allocating a fresh one when the loop
breaks out, then move server and client to `active` and cross-link them.
`newId` stands for the id produced by the id manager; server allocation is
modelled as succeeding, so the `OD_ROUTER_ERROR` branch is unreachable.
`none` models either a violated assertion (`client->route != NULL`) or a
search loop that has not exited within `fuel` iterations. -/
def od_router_attach (fuel : Nat) (newId : Nat) (router : RouterState)
    (client : Client) : Option (RouterStatus × RouterState × Client) :=
  match client.route with
  | none => none
  | some (id, ri) =>
    match routePoolMatch router.routes id ri with
    | none => none
    | some rt =>
      match router.rules[ri]? with
      | none => none
      | some rule =>
        match attachSearch rule rt.serverPool fuel with
        | none => none
        | some found =>
          let server := found.getD (freshServer newId)
          let sv := { server with
                      idle_time := 0
                      key_client := (client.key)
                      client := some (client.id) }
          let pool2 := serverPoolSet rt.serverPool sv ServerState.active
          let cp2 := clientPoolSet rt.clientPool client.id ClientState.active
          let routes2 := routePoolUpdate router.routes id ri
            (fun r => { r with serverPool := pool2, clientPool := cp2 })
          some (RouterStatus.ok,
                { router with routes := routes2 },
                { client with server := some sv.id,
                              state := ClientState.active })

/-! ### `od_router_expire` -/

/-- The obsolete-rule branch of the expire sweep: `od_server_pool_foreach`
over the idle servers with `od_router_expire_server_cb` (router.c lines
79-87), which appends each idle server to the expire list and bumps the
shared count — it does not alter the pool.  Returns the appended server
ids in iteration order, paired with the count delta. -/
def expireObsoleteRun : List Server → List Nat × Nat
  | [] => ([], 0)
  | s :: rest =>
    if s.state = ServerState.idle then
      let r := expireObsoleteRun rest
      (s.id :: r.1, r.2 + 1)
    else
      expireObsoleteRun rest

/-- The TTL branch of the expire sweep: `od_server_pool_foreach` over the
idle servers with `od_router_expire_server_tick_cb` (router.c lines
89-110).  An idle server under the TTL gets its `idle_time` advanced and
stays; one at or over the TTL is removed from the pool (`OD_SERVER_UNDEF`)
and appended to the expire list.  Returns the new pool, the appended ids
and the count delta. -/
def expireTickRun (ttl : Nat) : List Server → List Server × List Nat × Nat
  | [] => ([], [], 0)
  | s :: rest =>
    if s.state = ServerState.idle then
      if s.idle_time < ttl then
        let r := expireTickRun ttl rest
        ({ s with idle_time := s.idle_time + 1 } :: r.1, r.2.1, r.2.2)
      else
        let r := expireTickRun ttl rest
        (r.1, s.id :: r.2.1, r.2.2 + 1)
    else
      let r := expireTickRun ttl rest
      (s :: r.1, r.2.1, r.2.2)

/-- Embedding of `od_router_expire_cb` (router.c lines 112-141) on one
route: the obsolete-and-no-clients branch appends idle servers without
touching the pool; a zero `pool_ttl` does nothing; otherwise the TTL tick
runs.  Returns the updated route, the appended ids and the count delta. -/
def od_router_expire_cb (rules : List Rule) (rt : Route) :
    Route × List Nat × Nat :=
  match rules[rt.rule]? with
  | none => (rt, [], 0)
  | some rule =>
    if rule.obsolete ∧ clientPoolTotal rt.clientPool = 0 then
      let r := expireObsoleteRun rt.serverPool
      (rt, r.1, r.2)
    else if rule.pool_ttl = 0 then
      (rt, [], 0)
    else
      let r := expireTickRun rule.pool_ttl rt.serverPool
      ({ rt with serverPool := r.1 }, r.2.1, r.2.2)

/-- The route-pool sweep of `od_router_expire`: run the expire callback on
every route, accumulating the expire list and the count. -/
def expireRun (rules : List Rule) : List Route → List Route × List Nat × Nat
  | [] => ([], [], 0)
  | rt :: rest =>
    let r1 := od_router_expire_cb rules rt
    let r2 := expireRun rules rest
    (r1.1 :: r2.1, r1.2.1 ++ r2.2.1, r1.2.2 + r2.2.2)

/-- Embedding of `od_router_expire` (router.c lines 143-150): sweep all
routes, returning the new router state, the populated expire list (server
ids, in append order) and the returned count. -/
def od_router_expire (router : RouterState) :
    RouterState × List Nat × Nat :=
  let r := expireRun router.rules router.routes
  ({ router with routes := r.1 }, r.2.1, r.2.2)

/-! ### `od_router_gc` -/

/-- The GC eligibility test of `od_router_gc_cb` (router.c lines 152-179):
a route is reclaimed when it has no servers and no clients and is either
dynamic or bound to an obsolete rule. -/
def gcEligible (rules : List Rule) (rt : Route) : Bool :=
  (serverPoolTotal rt.serverPool = 0 : Bool) &&
    (clientPoolTotal rt.clientPool = 0 : Bool) &&
    (rt.isDynamic || (match rules[rt.rule]? with
                      | some r => r.obsolete
                      | none => false))

/-- The route-pool sweep of `od_router_gc`: each eligible route is unlinked
from the pool and its rule unrefed; every other route is kept.  The rule
list is threaded through because the callback unrefs while iterating. -/
def gcRun (rules : List Rule) : List Route → List Route × List Rule
  | [] => ([], rules)
  | rt :: rest =>
    if gcEligible rules rt then
      gcRun (rulesUnref rules rt.rule) rest
    else
      let r := gcRun rules rest
      (rt :: r.1, r.2)

/-- Embedding of `od_router_gc` (router.c lines 181-186). -/
def od_router_gc (router : RouterState) : RouterState :=
  let r := gcRun router.rules router.routes
  { router with routes := r.1, rules := r.2 }

/-! ### `od_router_cancel` -/

/-- The data copied out by a successful cancel lookup (`od_router_cancel_t`):
the matched server's id and forged key, and whether the storage descriptor
copy succeeded (`storage != NULL`). -/
structure RouterCancel where
  id : Nat
  key : Nat
  hasStorage : Bool
  deriving DecidableEq, Repr

/-- Embedding of `od_router_cancel_cb` (router.c lines 423-445) on one
route: search the route's `ACTIVE` servers for the first whose
`key_client` equals the given key (`od_router_cancel_cmp`); on a match,
copy out id, key and the storage copy, returning `1` on success and `-1`
when the storage copy fails; `0` when the route has no match.  The third
component counts how many servers had their data copied out. -/
def od_router_cancel_cb (rules : List Rule) (key : Nat) (rt : Route) :
    Int × Option RouterCancel × Nat :=
  match rt.serverPool.find?
      (fun s => s.state = ServerState.active ∧ s.key_client = key) with
  | none => (0, none, 0)
  | some sv =>
    let copyOk :=
      match rules[rt.rule]? with
      | some rule => rule.storage_copy_ok
      | none => false
    if copyOk then
      (1, some { id := sv.id, key := sv.key, hasStorage := true }, 1)
    else
      (-1, some { id := sv.id, key := sv.key, hasStorage := false }, 1)

/-- The route-pool sweep of `od_router_cancel`: `od_route_pool_foreach`
stops at the first route whose callback returns a nonzero value and
propagates that value; exhaustion yields `0`. -/
def cancelRun (rules : List Rule) (key : Nat) :
    List Route → Int × Option RouterCancel × Nat
  | [] => (0, none, 0)
  | rt :: rest =>
    let r := od_router_cancel_cb rules key rt
    if r.1 = 0 then cancelRun rules key rest else r

/-- Embedding of `od_router_cancel` (router.c lines 447-457): run the sweep
and map a non-positive callback result to `ERROR_NOT_FOUND`.  Returns the
status, the copied-out cancel data and the number of copies made. -/
def od_router_cancel (router : RouterState) (key : Nat) :
    RouterStatus × Option RouterCancel × Nat :=
  let r := cancelRun router.rules key router.routes
  (if r.1 ≤ 0 then RouterStatus.errorNotFound else RouterStatus.ok,
   r.2.1, r.2.2)

/-! ### Operation sequences

A small operational semantics over the embedded operations, used to state
the global counter-balance invariant.  The system state is the router
together with the table of all clients the protocol layer may hand to it;
clients are identified by their id. -/

/-- The system state: the router plus the table of protocol-layer clients. -/
structure Sys where
  router : RouterState
  tab : List Client
  deriving DecidableEq, Repr

/-- A router operation issued by the surrounding system. -/
inductive Op where
  | routeOp (cid : Nat)
  | unrouteOp (cid : Nat)
  | expireOp
  | gcOp
  | cancelOp (key : Nat)
  deriving DecidableEq, Repr

/-- Look a client up in the table by id. -/
def tabFind (tab : List Client) (cid : Nat) : Option Client :=
  tab.find? (fun c => c.id = cid)

/-- Replace the table entry with the given client's id. -/
def tabSet (tab : List Client) (c : Client) : List Client :=
  tab.map (fun x => if x.id = c.id then c else x)

/-- One system step.  `route` is issued only for a client the protocol layer
has not routed yet (`route == NULL`, `server == NULL`), matching its use in
the source; `unroute`'s own assertions make the step fail on a bad client.
`cancel` reads but never writes the router state. -/
def stepOp (cfg : Config) (s : Sys) : Op → Option Sys
  | Op.routeOp cid =>
    match tabFind s.tab cid with
    | none => none
    | some c =>
      if c.route = none ∧ c.server = none then
        let r := od_router_route cfg s.router c
        some { router := r.2.1, tab := tabSet s.tab r.2.2 }
      else
        none
  | Op.unrouteOp cid =>
    match tabFind s.tab cid with
    | none => none
    | some c =>
      match od_router_unroute s.router c with
      | none => none
      | some r => some { router := r.1, tab := tabSet s.tab r.2 }
  | Op.expireOp => some { s with router := (od_router_expire s.router).1 }
  | Op.gcOp => some { s with router := od_router_gc s.router }
  | Op.cancelOp _ => some s

/-- Run a sequence of operations; a failed step aborts the run. -/
def runOps (cfg : Config) : Sys → List Op → Option Sys
  | s, [] => some s
  | s, op :: ops =>
    match stepOp cfg s op with
    | none => none
    | some s2 => runOps cfg s2 ops

/-- The number of clients currently held between a successful `route` and
its matching `unroute`: exactly those whose `route` field is set. -/
def heldCount (tab : List Client) : Nat :=
  (tab.filter (fun c => c.route ≠ none)).length

/-- The client ids of the table are pairwise distinct. -/
def idsNodup (tab : List Client) : Prop :=
  (tab.map (fun c => c.id)).Nodup

/-! ### Concrete fixtures

Small concrete configurations, rules, clients and servers used to
instantiate the theorems below. -/

/-- A configuration with no global client cap. -/
def cfg0 : Config :=
  { client_max_set := false, client_max := 0, packet_read_size := 1024,
    is_multi_workers := false }

/-- A configuration with a global cap of one client. -/
def cfgCap1 : Config :=
  { cfg0 with client_max_set := true, client_max := 1 }

/-- A plain rule matching `(d, u)`. -/
def ruleA : Rule :=
  { db := "d", user := "u", obsolete := false, pool_size := 0, pool_ttl := 1,
    client_max_set := false, client_max := 0, storage_db := none,
    storage_user := none, storage_copy_ok := true, refcount := 0 }

/-- `ruleA` with a per-route client cap of zero. -/
def ruleCap0 : Rule :=
  { ruleA with client_max_set := true, client_max := 0 }

/-- `ruleA` marked obsolete. -/
def ruleObs : Rule :=
  { ruleA with obsolete := true }

/-- `ruleA` with a nonzero `pool_size`. -/
def rulePool1 : Rule :=
  { ruleA with pool_size := 1 }

/-- `ruleA` whose storage descriptor copy fails. -/
def ruleNoCopy : Rule :=
  { ruleA with storage_copy_ok := false }

/-- A fresh, unrouted client for `(d, u)`. -/
def clientA : Client :=
  { id := 1, key := 7, db := "d", user := "u", rule := none, route := none,
    server := none, state := ClientState.undef }

/-- The route id for `(d, u)` with no storage overrides. -/
def idA : RouteId :=
  { database := "d", user := "u" }

/-- An idle server with the given id and idle time. -/
def serverIdle (sid itime : Nat) : Server :=
  { id := sid, state := ServerState.idle, idle_time := itime,
    key := 100 + sid, key_client := 0, last_client_id := 0, client := none }

/-- An active server with the given id and forged client key. -/
def serverActive (sid k : Nat) : Server :=
  { id := sid, state := ServerState.active, idle_time := 0,
    key := 100 + sid, key_client := k, last_client_id := 0, client := none }

/-- `clientA`, routed on the route `(idA, 0)`. -/
def clientRouted : Client :=
  { clientA with route := some (idA, 0), rule := some 0,
                 state := ClientState.pending }

/-- A route for `(idA, 0)` holding `clientA` and no servers. -/
def rtSpin : Route :=
  { id := idA, rule := 0, isDynamic := true,
    clientPool := [(1, ClientState.pending)], serverPool := [] }

/-- A router whose only rule has `pool_size = 1` and whose only route has
an exhausted (empty) server pool. -/
def routerSpin : RouterState :=
  { rules := [rulePool1], routes := [rtSpin], clients := 1 }

/-- An empty-client route for `(idA, 0)` holding one idle server. -/
def rtObs : Route :=
  { id := idA, rule := 0, isDynamic := true,
    clientPool := [], serverPool := [serverIdle 5 0] }

/-- A router whose only rule is obsolete and whose only route has one idle
server and no clients. -/
def routerObs : RouterState :=
  { rules := [ruleObs], routes := [rtObs], clients := 0 }

/-- `ruleA` with a three-second pool TTL. -/
def ruleTtl3 : Rule :=
  { ruleA with pool_ttl := 3 }

/-- A route with two idle servers: one under the TTL, one at it. -/
def rtTick : Route :=
  { id := idA, rule := 0, isDynamic := true,
    clientPool := [], serverPool := [serverIdle 5 0, serverIdle 6 3] }

/-- A router for the TTL-tick sweep. -/
def routerTick : RouterState :=
  { rules := [ruleTtl3], routes := [rtTick], clients := 0 }

/-- A route holding an active server with forged client key `9`. -/
def rtCancel : Route :=
  { id := idA, rule := 0, isDynamic := true,
    clientPool := [(1, ClientState.active)],
    serverPool := [serverActive 5 9] }

/-- A router with a matching active server whose rule's storage copy
fails. -/
def routerCancelBad : RouterState :=
  { rules := [ruleNoCopy], routes := [rtCancel], clients := 1 }

/-- The initial system for the counter-balance run: one fresh client, no
routes, counter zero. -/
def sysDemo : Sys :=
  { router := { rules := [ruleA], routes := [], clients := 0 },
    tab := [clientA] }

/-- A demo operation sequence: route client 1, expire, gc, cancel, then
unroute client 1. -/
def opsDemo : List Op :=
  [Op.routeOp 1, Op.expireOp, Op.cancelOp 9, Op.unrouteOp 1, Op.gcOp]

/-- The system state reached by running `opsDemo` from `sysDemo`. -/
def sysEnd : Sys :=
  { router := { rules := [ruleA], routes := [], clients := 0 },
    tab := [{ clientA with rule := some 0 }] }

/-- Whether the storage copy of the given route's rule succeeds; mirrors
the lookup made by the cancel callback. -/
def ruleStorageOk (rules : List Rule) (rt : Route) : Bool :=
  match rules[rt.rule]? with
  | some rule => rule.storage_copy_ok
  | none => false

/-- The first route of the pool, in iteration order, holding an `ACTIVE`
server whose forged client key matches; the route `od_router_cancel`'s
sweep stops at. -/
def firstCancelMatch (key : Nat) (routes : List Route) : Option Route :=
  routes.find? (fun rt =>
    (rt.serverPool.find?
      (fun s => s.state = ServerState.active ∧ s.key_client = key)).isSome)

end Odyssey

namespace Odyssey

/-! ### Helper lemmas -/

/-- Unref right after ref restores the rule list exactly. -/
theorem rulesUnref_rulesRef (rules : List Rule) (i : Nat) :
    rulesUnref (rulesRef rules i) i = rules := by
  induction rules generalizing i with
  | nil => simp [rulesRef, rulesUnref]
  | cons a l ih =>
    cases i with
    | zero => simp [rulesRef, rulesUnref, List.modify]
    | succ n =>
      simpa [rulesRef, rulesUnref, List.modify] using ih n

/-! ### Claim C8: global client cap -/

/-- C8: whenever `config.client_max_set` holds and `router.clients` is
already at or over `config.client_max` at the check (i.e. a rule was
matched and the check is reached), `od_router_route` returns `ERROR_LIMIT`
with the router state — clients counter, route pool and rule refcounts —
completely unchanged, and the client untouched. -/
theorem route_global_limit (config : Config) (router : RouterState)
    (client : Client) (ri : Nat) (rule : Rule)
    (hfwd : rulesForward router.rules client.db client.user = some ri)
    (hget : router.rules[ri]? = some rule)
    (hset : config.client_max_set = true)
    (hmax : router.clients ≥ config.client_max) :
    od_router_route config router client
      = (RouterStatus.errorLimit, router, client) := by
  simp [od_router_route, hfwd, hget, hset, hmax]

/-- C8 witness: with a global cap of one and one routed client, routing a
second client is refused with `ERROR_LIMIT` and nothing changes. -/
theorem route_global_limit_witness :
    od_router_route cfgCap1
        { rules := [ruleA], routes := [], clients := 1 } clientA
      = (RouterStatus.errorLimit,
         { rules := [ruleA], routes := [], clients := 1 }, clientA) :=
  route_global_limit cfgCap1
    { rules := [ruleA], routes := [], clients := 1 } clientA 0 ruleA
    (by decide) (by decide) (by decide) (by decide)

/-! ### Claim C1: per-route client cap rolls back the reservation -/

/-- C1: whenever the matched rule has `client_max_set` and the route's
client pool total is already at or over `rule.client_max`,
`od_router_route` returns `ERROR_LIMIT_ROUTE` and rolls back its
reservation: the global clients counter and the whole rule list — hence
the rule's refcount — end up exactly as before the call, and the client
is untouched. -/
theorem route_limit_route_rollback (config : Config) (router : RouterState)
    (client : Client) (ri : Nat) (rule : Rule)
    (hfwd : rulesForward router.rules client.db client.user = some ri)
    (hget : router.rules[ri]? = some rule)
    (hglobal : ¬(config.client_max_set = true ∧
                 router.clients ≥ config.client_max))
    (hset : rule.client_max_set = true)
    (hmax : clientPoolTotal
        (routeMatchOrNew router.routes (routeBuildId rule client)
          ri).clientPool ≥ rule.client_max) :
    (od_router_route config router client).1 = RouterStatus.errorLimitRoute ∧
    (od_router_route config router client).2.1.clients = router.clients ∧
    (od_router_route config router client).2.1.rules = router.rules ∧
    (od_router_route config router client).2.2 = client := by
  simp only [od_router_route, hfwd, hget, hset, hmax]
  rw [if_neg (by simpa using hglobal)]
  simp [hset, hmax, rulesUnref_rulesRef]

/-- C1 witness: a rule whose per-route cap is zero refuses the very first
client with `ERROR_LIMIT_ROUTE`, leaving the counter and refcounts as they
were. -/
theorem route_limit_route_rollback_witness :
    (od_router_route cfg0
        { rules := [ruleCap0], routes := [], clients := 0 } clientA).1
        = RouterStatus.errorLimitRoute ∧
    (od_router_route cfg0
        { rules := [ruleCap0], routes := [], clients := 0 } clientA).2.1.clients
        = 0 ∧
    (od_router_route cfg0
        { rules := [ruleCap0], routes := [], clients := 0 } clientA).2.1.rules
        = [ruleCap0] ∧
    (od_router_route cfg0
        { rules := [ruleCap0], routes := [], clients := 0 } clientA).2.2
        = clientA :=
  route_limit_route_rollback cfg0
    { rules := [ruleCap0], routes := [], clients := 0 } clientA 0 ruleCap0
    (by decide) (by decide) (by decide) (by decide) (by decide)

/-! ### Claim C9: the failing call leaves the new dynamic route inserted -/

/-- C9: when `od_router_route` creates a new dynamic route and then fails
the per-route `client_max` check (possible exactly when the cap is zero,
since the fresh route's pool is empty), the call returns
`ERROR_LIMIT_ROUTE` with the clients counter and the rule refcounts rolled
back, yet the route pool now contains the newly created empty dynamic
route appended — the failing call does not unlink or free it. -/
theorem route_limit_route_leaves_route (config : Config)
    (router : RouterState) (client : Client) (ri : Nat) (rule : Rule)
    (hfwd : rulesForward router.rules client.db client.user = some ri)
    (hget : router.rules[ri]? = some rule)
    (hglobal : ¬(config.client_max_set = true ∧
                 router.clients ≥ config.client_max))
    (hmatch : routePoolMatch router.routes (routeBuildId rule client) ri
        = none)
    (hset : rule.client_max_set = true)
    (hzero : rule.client_max = 0) :
    od_router_route config router client
      = (RouterStatus.errorLimitRoute,
         { router with routes :=
             routePoolNew router.routes (routeBuildId rule client) ri },
         client) := by
  simp only [od_router_route, hfwd, hget]
  rw [if_neg (by simpa using hglobal)]
  simp [hmatch, routeMatchOrNew, hset, hzero, clientPoolTotal,
        rulesUnref_rulesRef]

/-- C9 witness: routing the first client against a cap-zero rule creates
the dynamic route, fails the cap check, and leaves the empty route in the
pool while counter and refcounts are restored. -/
theorem route_limit_route_leaves_route_witness :
    od_router_route cfg0
        { rules := [ruleCap0], routes := [], clients := 0 } clientA
      = (RouterStatus.errorLimitRoute,
         { rules := [ruleCap0],
           routes := [{ id := idA, rule := 0, isDynamic := true,
                        clientPool := [], serverPool := [] }],
           clients := 0 },
         clientA) :=
  route_limit_route_leaves_route cfg0
    { rules := [ruleCap0], routes := [], clients := 0 } clientA 0 ruleCap0
    (by decide) (by decide) (by decide) (by decide) (by decide) (by decide)

/-! ### Claim C10: unroute preconditions are assertions -/

/-- C10: `od_router_unroute` requires a currently-routed client
(`client->route != NULL`) that is not attached to a server
(`client->server == NULL`); on an unrouted client or one still attached to
a server it fails an assertion (modelled as `none`) instead of returning
an error result. -/
theorem unroute_requires_routed_detached (router : RouterState)
    (client : Client)
    (h : client.route = none ∨ client.server ≠ none) :
    od_router_unroute router client = none := by
  rcases h with h | h
  · simp [od_router_unroute, h]
  · cases hr : client.route with
    | none => simp [od_router_unroute, hr]
    | some p => simp [od_router_unroute, hr, h]

/-! ### Claim C4: attach with `pool_size > 0` and no idle server -/

/-- When the pool has no idle server and the rule's `pool_size` is nonzero,
the server-search loop of `od_router_attach` makes no progress: it neither
finds a server nor breaks out, at any fuel. -/
theorem attachSearch_spin (rule : Rule) (pool : List Server)
    (hidle : serverPoolNext pool ServerState.idle = none)
    (hsize : rule.pool_size ≠ 0) :
    ∀ fuel, attachSearch rule pool fuel = none := by
  intro fuel
  induction fuel with
  | zero => rfl
  | succ n ih => simp [attachSearch, hidle, hsize, ih]

/-- C4 counterexample: on a route whose rule has `pool_size = 1` and whose
server pool holds no idle server, `od_router_attach` does not break out of
the search loop and terminate — it returns no result at any fuel, because
the loop body neither breaks nor changes the pool it polls. -/
theorem attach_pool1_counterexample :
    ¬ ∃ fuel out,
        od_router_attach fuel 42 routerSpin clientRouted = some out := by
  rintro ⟨fuel, out, h⟩
  have hs : ∀ f, attachSearch rulePool1 [] f = none :=
    attachSearch_spin rulePool1 [] (by decide) (by decide)
  simp [od_router_attach, clientRouted, clientA, routerSpin, rtSpin, idA,
        routePoolMatch, hs fuel] at h

/-- C4 amended: for every call to `od_router_attach` on a route whose rule
has `pool_size > 0` and whose server pool contains no idle server, the
search loop never exits — neither by finding a server nor by the
`pool_size == 0` break — so the call never reaches the allocation step and
produces no result at any fuel (the loop re-polls the unchanged pool
forever). -/
theorem attach_spins_when_pool_size_pos (router : RouterState)
    (client : Client) (id : RouteId) (ri : Nat) (rt : Route) (rule : Rule)
    (newId : Nat)
    (hroute : client.route = some (id, ri))
    (hmatch : routePoolMatch router.routes id ri = some rt)
    (hget : router.rules[ri]? = some rule)
    (hidle : serverPoolNext rt.serverPool ServerState.idle = none)
    (hsize : rule.pool_size ≠ 0) :
    ∀ fuel, od_router_attach fuel newId router client = none := by
  intro fuel
  simp [od_router_attach, hroute, hmatch, hget,
        attachSearch_spin rule rt.serverPool hidle hsize fuel]

/-- C4 witness: the amended theorem applied to the concrete exhausted
route. -/
theorem attach_spins_when_pool_size_pos_witness :
    od_router_attach 1000 42 routerSpin clientRouted = none :=
  attach_spins_when_pool_size_pos routerSpin clientRouted idA 0 rtSpin
    rulePool1 42 (by decide) (by decide) (by decide) (by decide) (by decide)
    1000

/-! ### Claims C3 and C7: the expire sweep -/

/-- The route-pool expire sweep, componentwise: routes are mapped in place,
the expire list is the concatenation of the per-route appends, and the
count is their sum. -/
theorem expireRun_eq (rules : List Rule) (routes : List Route) :
    expireRun rules routes =
      (routes.map (fun rt => (od_router_expire_cb rules rt).1),
       (routes.map (fun rt => (od_router_expire_cb rules rt).2.1)).flatten,
       (routes.map (fun rt => (od_router_expire_cb rules rt).2.2)).sum) := by
  induction routes with
  | nil => rfl
  | cons rt rest ih => simp [expireRun, ih]

/-- Every idle server's id is appended by the obsolete-branch callback. -/
theorem expireObsoleteRun_mem (pool : List Server) (s : Server)
    (hmem : s ∈ pool) (hidle : s.state = ServerState.idle) :
    s.id ∈ (expireObsoleteRun pool).1 := by
  induction pool with
  | nil => cases hmem
  | cons a rest ih =>
    rcases List.mem_cons.mp hmem with rfl | hmem
    · simp [expireObsoleteRun, hidle]
    · by_cases ha : a.state = ServerState.idle
      · simp [expireObsoleteRun, ha, ih hmem]
      · simpa [expireObsoleteRun, ha] using ih hmem

/-- The obsolete-branch callback bumps the count once per append. -/
theorem expireObsoleteRun_len (pool : List Server) :
    (expireObsoleteRun pool).2 = (expireObsoleteRun pool).1.length := by
  induction pool with
  | nil => rfl
  | cons a rest ih =>
    by_cases ha : a.state = ServerState.idle <;>
      simp [expireObsoleteRun, ha, ih]

/-- The TTL-branch callback, characterised: an idle server under the TTL
stays with its `idle_time` advanced, an idle server at or over the TTL is
dropped from the pool and its id appended, and every other server is kept
as is; the count matches the appends. -/
theorem expireTickRun_eq (ttl : Nat) (pool : List Server) :
    expireTickRun ttl pool =
      (pool.filterMap (fun s =>
         if s.state = ServerState.idle then
           if s.idle_time < ttl then
             some { s with idle_time := s.idle_time + 1 }
           else none
         else some s),
       (pool.filter (fun s =>
          s.state = ServerState.idle ∧ ¬ s.idle_time < ttl)).map
         (fun s => s.id),
       (pool.filter (fun s =>
          s.state = ServerState.idle ∧ ¬ s.idle_time < ttl)).length) := by
  induction pool with
  | nil => rfl
  | cons a rest ih =>
    by_cases h1 : a.state = ServerState.idle
    · by_cases h2 : a.idle_time < ttl
      · simp [expireTickRun, h1, h2, ih]
      · have h2' : ttl ≤ a.idle_time := Nat.not_lt.mp h2
        simp [expireTickRun, h1, h2, h2', ih, List.filter_cons]
    · simp [expireTickRun, h1, ih]

/-- One route's expire callback appends exactly as many ids as it counts. -/
theorem expire_cb_count (rules : List Rule) (rt : Route) :
    (od_router_expire_cb rules rt).2.2
      = (od_router_expire_cb rules rt).2.1.length := by
  unfold od_router_expire_cb
  cases hr : rules[rt.rule]? with
  | none => rfl
  | some rule =>
    by_cases hobs : rule.obsolete = true ∧ clientPoolTotal rt.clientPool = 0
    · simp [hobs, expireObsoleteRun_len]
    · by_cases httl : rule.pool_ttl = 0
      · simp [hobs, httl]
      · simp [hobs, httl, expireTickRun_eq]

/-- The value returned by `od_router_expire` equals the number of servers
appended to the expire list during the sweep. -/
theorem expire_count_eq_length (router : RouterState) :
    (od_router_expire router).2.2
      = (od_router_expire router).2.1.length := by
  simp only [od_router_expire, expireRun_eq]
  rw [List.length_flatten]
  congr 1
  simp [Function.comp, expire_cb_count]

/-- C3 counterexample: on a route whose rule is obsolete and whose client
pool is empty, the expire sweep appends the idle server (id 5) to the
expire list but does *not* remove it from the route's server pool — the
route comes out of the sweep unchanged, with server 5 still idle in its
pool, contradicting the claim that the server is moved out with state
`UNDEF`. -/
theorem expire_obsolete_counterexample :
    (od_router_expire routerObs).2.1 = [5] ∧
    (od_router_expire routerObs).1.routes[0]? = some rtObs ∧
    serverIdle 5 0 ∈ rtObs.serverPool ∧
    (serverIdle 5 0).state = ServerState.idle := by
  decide

/-- C3 amended: for every route whose rule is obsolete and whose client
pool is empty, the expire sweep appends every idle server of the route to
the expire list, but leaves the route — in particular its idle server
pool — completely unchanged: the servers are neither removed from the pool
nor set to `UNDEF`. -/
theorem expire_obsolete_appends_only (router : RouterState) (i : Nat)
    (rt : Route) (rule : Rule)
    (hrt : router.routes[i]? = some rt)
    (hrule : router.rules[rt.rule]? = some rule)
    (hobs : rule.obsolete = true)
    (hnoc : clientPoolTotal rt.clientPool = 0) :
    (od_router_expire router).1.routes[i]? = some rt ∧
    ∀ s ∈ rt.serverPool, s.state = ServerState.idle →
      s.id ∈ (od_router_expire router).2.1 := by
  have hcb : od_router_expire_cb router.rules rt
      = (rt, (expireObsoleteRun rt.serverPool).1,
         (expireObsoleteRun rt.serverPool).2) := by
    simp [od_router_expire_cb, hrule, hobs, hnoc]
  constructor
  · simp only [od_router_expire, expireRun_eq]
    rw [List.getElem?_map, hrt]
    simp [hcb]
  · intro s hs hidle
    simp only [od_router_expire, expireRun_eq]
    rw [List.mem_flatten]
    refine ⟨(od_router_expire_cb router.rules rt).2.1, ?_, ?_⟩
    · exact List.mem_map_of_mem _ (List.getElem?_mem hrt)
    · rw [hcb]
      exact expireObsoleteRun_mem rt.serverPool s hs hidle

/-- C3 witness: the amended theorem applied to the concrete obsolete
route. -/
theorem expire_obsolete_appends_only_witness :
    (od_router_expire routerObs).1.routes[0]? = some rtObs ∧
    ∀ s ∈ rtObs.serverPool, s.state = ServerState.idle →
      s.id ∈ (od_router_expire routerObs).2.1 :=
  expire_obsolete_appends_only routerObs 0 rtObs ruleObs
    (by decide) (by decide) (by decide) (by decide)

/-- C7: on a route whose rule is not (obsolete with an empty client pool)
and whose `pool_ttl` is positive, one expire sweep advances the
`idle_time` of each idle server under the TTL and keeps it in the pool,
removes each idle server at or over the TTL from the pool and appends its
id to the expire list, and keeps every non-idle server untouched; and the
value returned by `od_router_expire` equals the number of servers appended
to the expire list during the sweep. -/
theorem expire_ttl_tick (router : RouterState) (i : Nat) (rt : Route)
    (rule : Rule)
    (hrt : router.routes[i]? = some rt)
    (hrule : router.rules[rt.rule]? = some rule)
    (hlive : ¬(rule.obsolete = true ∧ clientPoolTotal rt.clientPool = 0))
    (httl : rule.pool_ttl ≠ 0) :
    (od_router_expire router).1.routes[i]? = some
      { rt with serverPool := rt.serverPool.filterMap (fun s =>
          if s.state = ServerState.idle then
            if s.idle_time < rule.pool_ttl then
              some { s with idle_time := s.idle_time + 1 }
            else none
          else some s) } ∧
    (od_router_expire_cb router.rules rt).2.1
      = (rt.serverPool.filter (fun s =>
          s.state = ServerState.idle ∧ ¬ s.idle_time < rule.pool_ttl)).map
        (fun s => s.id) ∧
    (∀ s ∈ rt.serverPool, s.state = ServerState.idle →
      ¬ s.idle_time < rule.pool_ttl →
      s.id ∈ (od_router_expire router).2.1) ∧
    (od_router_expire router).2.2
      = (od_router_expire router).2.1.length := by
  have hcb : od_router_expire_cb router.rules rt
      = ({ rt with serverPool := (expireTickRun rule.pool_ttl
            rt.serverPool).1 },
         (expireTickRun rule.pool_ttl rt.serverPool).2.1,
         (expireTickRun rule.pool_ttl rt.serverPool).2.2) := by
    simp [od_router_expire_cb, hrule, hlive, httl]
  refine ⟨?_, ?_, ?_, expire_count_eq_length router⟩
  · simp only [od_router_expire, expireRun_eq]
    rw [List.getElem?_map, hrt]
    simp [hcb, expireTickRun_eq]
  · rw [hcb]
    simp [expireTickRun_eq]
  · intro s hs hidle hold
    simp only [od_router_expire, expireRun_eq]
    rw [List.mem_flatten]
    refine ⟨(od_router_expire_cb router.rules rt).2.1, ?_, ?_⟩
    · exact List.mem_map_of_mem _ (List.getElem?_mem hrt)
    · rw [hcb]
      simp only [expireTickRun_eq]
      exact List.mem_map_of_mem _ (List.mem_filter_of_mem hs
        (by simp [hidle, hold]))

/-- C7 witness: the sweep on the concrete TTL route keeps server 5 with
its idle time advanced and expels server 6. -/
theorem expire_ttl_tick_witness :
    (od_router_expire routerTick).1.routes[0]? = some
      { rtTick with serverPool := rtTick.serverPool.filterMap (fun s =>
          if s.state = ServerState.idle then
            if s.idle_time < ruleTtl3.pool_ttl then
              some { s with idle_time := s.idle_time + 1 }
            else none
          else some s) } ∧
    (od_router_expire_cb routerTick.rules rtTick).2.1
      = (rtTick.serverPool.filter (fun s =>
          s.state = ServerState.idle ∧
            ¬ s.idle_time < ruleTtl3.pool_ttl)).map (fun s => s.id) ∧
    (∀ s ∈ rtTick.serverPool, s.state = ServerState.idle →
      ¬ s.idle_time < ruleTtl3.pool_ttl →
      s.id ∈ (od_router_expire routerTick).2.1) ∧
    (od_router_expire routerTick).2.2
      = (od_router_expire routerTick).2.1.length :=
  expire_ttl_tick routerTick 0 rtTick ruleTtl3
    (by decide) (by decide) (by decide) (by decide)

/-! ### Claim C6: the GC sweep -/

/-- Unref changes only refcounts, never the obsolete flag, so GC
eligibility is unaffected by the unrefs made earlier in the sweep. -/
theorem gcEligible_unref (rules : List Rule) (j : Nat) (rt : Route) :
    gcEligible (rulesUnref rules j) rt = gcEligible rules rt := by
  unfold gcEligible rulesUnref
  rw [List.getElem?_modify]
  cases hr : rules[rt.rule]? with
  | none => rfl
  | some r => by_cases h : j = rt.rule <;> simp [h]

/-- The GC sweep, characterised: exactly the eligible routes are unlinked,
and each unlinked route's rule is unrefed, in sweep order. -/
theorem gcRun_eq (rules : List Rule) (routes : List Route) :
    gcRun rules routes =
      (routes.filter (fun rt => !gcEligible rules rt),
       (routes.filter (fun rt => gcEligible rules rt)).foldl
         (fun rs rt => rulesUnref rs rt.rule) rules) := by
  induction routes generalizing rules with
  | nil => rfl
  | cons rt rest ih =>
    by_cases h : gcEligible rules rt
    · have hcong1 : rest.filter
          (fun x => !gcEligible (rulesUnref rules rt.rule) x)
          = rest.filter (fun x => !gcEligible rules x) :=
        List.filter_congr (fun x _ => by rw [gcEligible_unref])
      have hcong2 : rest.filter
          (fun x => gcEligible (rulesUnref rules rt.rule) x)
          = rest.filter (fun x => gcEligible rules x) :=
        List.filter_congr (fun x _ => by rw [gcEligible_unref])
      simp [gcRun, h, ih, hcong1, hcong2, List.filter_cons]
    · simp [gcRun, h, ih, List.filter_cons]

/-- C6: after a gc sweep, a route has been unlinked from the route pool
(with its rule unrefed) if and only if, at sweep time, it had zero clients
and zero servers and was either dynamic or bound to an obsolete rule: the
surviving pool is exactly the original list with the eligible routes
removed — every other route is left unchanged, in place — the rule list
carries one unref per reclaimed route, and the clients counter is
untouched. -/
theorem gc_reclaims_exactly_eligible (router : RouterState) :
    (od_router_gc router).routes
      = router.routes.filter (fun rt => !gcEligible router.rules rt) ∧
    (od_router_gc router).rules
      = (router.routes.filter (fun rt => gcEligible router.rules rt)).foldl
          (fun rs rt => rulesUnref rs rt.rule) router.rules ∧
    (od_router_gc router).clients = router.clients := by
  unfold od_router_gc
  rw [gcRun_eq]
  exact ⟨rfl, rfl, rfl⟩

/-! ### Claim C5: cancel lookup -/

/-- The cancel callback, written over `ruleStorageOk`. -/
theorem cancel_cb_eq (rules : List Rule) (key : Nat) (rt : Route) :
    od_router_cancel_cb rules key rt =
      match rt.serverPool.find?
          (fun s => s.state = ServerState.active ∧ s.key_client = key) with
      | none => (0, none, 0)
      | some sv =>
        if ruleStorageOk rules rt then
          (1, some { id := sv.id, key := sv.key, hasStorage := true }, 1)
        else
          (-1, some { id := sv.id, key := sv.key, hasStorage := false }, 1)
    := rfl

/-- One step of `firstCancelMatch` along the route list. -/
theorem firstCancelMatch_cons (key : Nat) (rt : Route)
    (rest : List Route) :
    firstCancelMatch key (rt :: rest) =
      if (rt.serverPool.find?
          (fun s => s.state = ServerState.active ∧
            s.key_client = key)).isSome
      then some rt else firstCancelMatch key rest := by
  unfold firstCancelMatch
  rw [List.find?_cons]
  cases hf : (rt.serverPool.find?
      (fun s => s.state = ServerState.active ∧
        s.key_client = key)).isSome <;> simp

/-- The cancel sweep, characterised: the foreach result is `1` exactly when
the first route holding a matching active server exists and its rule's
storage copy succeeds; the result is always `1`, `0` or `-1`; and at most
one server's data is copied out. -/
theorem cancelRun_spec (rules : List Rule) (key : Nat)
    (routes : List Route) :
    ((cancelRun rules key routes).1 = 1 ↔
      (∃ rt, firstCancelMatch key routes = some rt ∧
        ruleStorageOk rules rt = true)) ∧
    ((cancelRun rules key routes).1 = 1 ∨
     (cancelRun rules key routes).1 = 0 ∨
     (cancelRun rules key routes).1 = -1) ∧
    (cancelRun rules key routes).2.2 ≤ 1 := by
  induction routes with
  | nil => simp [cancelRun, firstCancelMatch]
  | cons rt rest ih =>
    have hfc := firstCancelMatch_cons key rt rest
    cases hf : rt.serverPool.find?
        (fun s => s.state = ServerState.active ∧ s.key_client = key) with
    | none =>
      rw [hf] at hfc
      simp only [Option.isSome_none, Bool.false_eq_true, if_false] at hfc
      have hcb : od_router_cancel_cb rules key rt = (0, none, 0) := by
        rw [cancel_cb_eq, hf]
      simp only [cancelRun, hcb, hfc]
      simpa using ih
    | some sv =>
      rw [hf] at hfc
      simp only [Option.isSome_some, if_true] at hfc
      by_cases hc : ruleStorageOk rules rt = true
      · have hcb : od_router_cancel_cb rules key rt
            = (1, some { id := sv.id, key := sv.key, hasStorage := true },
               1) := by
          rw [cancel_cb_eq, hf]
          simp [hc]
        simp [cancelRun, hcb, hfc, hc]
      · have hc2 : ruleStorageOk rules rt = false := by
          simpa using hc
        have hcb : od_router_cancel_cb rules key rt
            = (-1, some { id := sv.id, key := sv.key, hasStorage := false },
               1) := by
          rw [cancel_cb_eq, hf]
          simp [hc2]
        simp [cancelRun, hcb, hfc, hc2]

/-- C5 counterexample: a route holds an `ACTIVE` server whose forged key
matches, yet `od_router_cancel` returns `ERROR_NOT_FOUND`, because the
matched rule's storage copy fails and the sweep stops with `-1` — so "OK
iff some route holds a matching active server" is false as stated. -/
theorem cancel_copy_fail_counterexample :
    (∃ rt ∈ routerCancelBad.routes, ∃ s ∈ rt.serverPool,
        s.state = ServerState.active ∧ s.key_client = 9) ∧
    (od_router_cancel routerCancelBad 9).1
      = RouterStatus.errorNotFound := by
  decide

/-- C5 amended: `od_router_cancel` returns `OK` iff the first route (in
pool order) holding an `ACTIVE` server whose `key_client` equals the key
exists *and* that route's rule's storage copy succeeds; in every other
case — no match anywhere, or a failing storage copy on the first match —
it returns `ERROR_NOT_FOUND`.  Iteration stops at the first matching
server, so at most one server's data is copied out. -/
theorem cancel_first_match_with_storage (router : RouterState)
    (key : Nat) :
    ((od_router_cancel router key).1 = RouterStatus.ok ↔
      (∃ rt, firstCancelMatch key router.routes = some rt ∧
        ruleStorageOk router.rules rt = true)) ∧
    ((od_router_cancel router key).1 = RouterStatus.ok ∨
     (od_router_cancel router key).1 = RouterStatus.errorNotFound) ∧
    (od_router_cancel router key).2.2 ≤ 1 := by
  obtain ⟨h1, h2, h3⟩ := cancelRun_spec router.rules key router.routes
  have hkey : od_router_cancel router key
      = (if (cancelRun router.rules key router.routes).1 ≤ 0
         then RouterStatus.errorNotFound else RouterStatus.ok,
         (cancelRun router.rules key router.routes).2.1,
         (cancelRun router.rules key router.routes).2.2) := rfl
  rcases h2 with h | h | h <;> rw [h] at h1 <;> rw [hkey, h]
  · exact ⟨by simpa using h1, by simp, by simpa using h3⟩
  · refine ⟨?_, by simp, by simpa using h3⟩
    have hns : ¬ ∃ rt, firstCancelMatch key router.routes = some rt ∧
        ruleStorageOk router.rules rt = true := by
      intro hex
      exact absurd (h1.mpr hex) (by decide)
    simp only [show ((0:Int) ≤ 0) = True by simp, if_true]
    simpa using hns
  · refine ⟨?_, by simp, by simpa using h3⟩
    have hns : ¬ ∃ rt, firstCancelMatch key router.routes = some rt ∧
        ruleStorageOk router.rules rt = true := by
      intro hex
      exact absurd (h1.mpr hex) (by decide)
    simp only [show ((-1:Int) ≤ 0) = True by simp, if_true]
    simpa using hns

/-! ### Claim C2: the clients counter balances -/

/-- Replacing a table entry never changes the id column. -/
theorem tabSet_map_id (tab : List Client) (c : Client) :
    (tabSet tab c).map (fun x => x.id) = tab.map (fun x => x.id) := by
  induction tab with
  | nil => rfl
  | cons a rest ih =>
    by_cases h : a.id = c.id <;> simp [tabSet, h] <;>
      simpa [tabSet] using ih

/-- Replacing a table entry preserves distinctness of ids. -/
theorem idsNodup_tabSet (tab : List Client) (c : Client)
    (h : idsNodup tab) : idsNodup (tabSet tab c) := by
  unfold idsNodup at h ⊢
  rw [tabSet_map_id]
  exact h

/-- A table lookup returns a client bearing the requested id. -/
theorem tabFind_id (tab : List Client) (cid : Nat) (c : Client)
    (h : tabFind tab cid = some c) : c.id = cid := by
  simpa using List.find?_some h

/-- Replacing an id that occurs nowhere in the table is a no-op. -/
theorem tabSet_eq_of_ids_ne (tab : List Client) (c : Client)
    (h : ∀ x ∈ tab, x.id ≠ c.id) : tabSet tab c = tab := by
  unfold tabSet
  have hcong : ∀ x ∈ tab, (if x.id = c.id then c else x) = x :=
    fun x hx => by simp [h x hx]
  calc tab.map (fun x => if x.id = c.id then c else x)
      = tab.map id := List.map_congr_left hcong
    _ = tab := List.map_id tab

/-- Splitting the held-client count at the head of the table. -/
theorem heldCount_cons (x : Client) (l : List Client) :
    heldCount (x :: l)
      = (if x.route ≠ none then 1 else 0) + heldCount l := by
  by_cases h : x.route = none <;> simp [heldCount, List.filter_cons, h] <;>
    omega

/-- Replacing the (unique) entry with the given client's id trades that
entry's held-indicator for the replacement's. -/
theorem heldCount_tabSet (tab : List Client) (c c2 : Client)
    (hid : c2.id = c.id)
    (hfind : tabFind tab c.id = some c)
    (hnd : idsNodup tab) :
    heldCount (tabSet tab c2) + (if c.route ≠ none then 1 else 0)
      = heldCount tab + (if c2.route ≠ none then 1 else 0) := by
  induction tab with
  | nil => simp [tabFind] at hfind
  | cons a rest ih =>
    rw [idsNodup, List.map_cons, List.nodup_cons] at hnd
    by_cases ha : a.id = c.id
    · have hac : a = c := by
        simpa [tabFind, List.find?_cons, ha] using hfind
      have hane : a.id = c2.id := by rw [ha, hid]
      have hrest : tabSet rest c2 = rest := by
        refine tabSet_eq_of_ids_ne rest c2 (fun x hx hxe => ?_)
        exact hnd.1 (by
          rw [← hxe] at hane
          rw [hane]
          exact List.mem_map_of_mem _ hx)
      have hhead : tabSet (a :: rest) c2 = c2 :: rest := by
        unfold tabSet at hrest ⊢
        rw [List.map_cons, if_pos hane, hrest]
      rw [hhead, heldCount_cons, heldCount_cons, hac]
      omega
    · have hfind2 : tabFind rest c.id = some c := by
        simpa [tabFind, List.find?_cons, ha] using hfind
      have hane : ¬ a.id = c2.id := by rw [hid]; exact ha
      have hhead : tabSet (a :: rest) c2 = a :: tabSet rest c2 := by
        unfold tabSet
        rw [List.map_cons, if_neg hane]
      rw [hhead, heldCount_cons, heldCount_cons]
      have := ih hfind2 hnd.2
      omega

/-- `od_router_route`, by cases: a call that returns `OK` bumps the
counter by one and routes the client; any failing call leaves the counter
and the client exactly as they were. -/
theorem od_router_route_cases (cfg : Config) (r : RouterState)
    (c : Client) :
    ((od_router_route cfg r c).1 = RouterStatus.ok ∧
     (od_router_route cfg r c).2.1.clients = r.clients + 1 ∧
     (od_router_route cfg r c).2.2.route ≠ none ∧
     (od_router_route cfg r c).2.2.id = c.id) ∨
    ((od_router_route cfg r c).1 ≠ RouterStatus.ok ∧
     (od_router_route cfg r c).2.1.clients = r.clients ∧
     (od_router_route cfg r c).2.2 = c) := by
  unfold od_router_route
  cases hfw : rulesForward r.rules c.db c.user with
  | none => simp [hfw]
  | some ri =>
    simp only [hfw]
    cases hget : r.rules[ri]? with
    | none => simp [hget]
    | some rule =>
      simp only [hget]
      by_cases hg : cfg.client_max_set ∧ r.clients ≥ cfg.client_max
      · simp [hg]
      · by_cases hr : rule.client_max_set ∧
            clientPoolTotal (routeMatchOrNew r.routes
              (routeBuildId rule c) ri).clientPool ≥ rule.client_max
        · simp [hg, hr]
        · simp [hg, hr]

/-- `od_router_unroute`, when it succeeds: the client was routed and
detached, the counter was positive and is decremented by exactly one, and
the client comes back unrouted with its id intact. -/
theorem od_router_unroute_cases (r : RouterState) (c : Client)
    (r2 : RouterState) (c2 : Client)
    (h : od_router_unroute r c = some (r2, c2)) :
    c.route ≠ none ∧ r.clients ≠ 0 ∧ r2.clients + 1 = r.clients ∧
    c2.route = none ∧ c2.id = c.id := by
  unfold od_router_unroute at h
  cases hr : c.route with
  | none => rw [hr] at h; simp at h
  | some p =>
    rw [hr] at h
    simp only [] at h
    obtain ⟨id, ri⟩ := p
    by_cases hs : c.server ≠ none
    · rw [if_pos hs] at h; simp at h
    · rw [if_neg hs] at h
      by_cases hz : r.clients = 0
      · rw [if_pos hz] at h; simp at h
      · rw [if_neg hz] at h
        cases hm : routePoolMatch r.routes id ri with
        | none => rw [hm] at h; simp at h
        | some rt =>
          rw [hm] at h
          simp only [Option.some.injEq, Prod.mk.injEq] at h
          obtain ⟨h1, h2⟩ := h
          refine ⟨by simp [hr], hz, ?_, ?_, ?_⟩
          · rw [← h1]
            simp only
            omega
          · rw [← h2]
          · rw [← h2]

/-- The expire sweep never touches the clients counter. -/
theorem expire_preserves_clients (r : RouterState) :
    (od_router_expire r).1.clients = r.clients := rfl

/-- The GC sweep never touches the clients counter. -/
theorem gc_preserves_clients (r : RouterState) :
    (od_router_gc r).clients = r.clients := rfl

/-- One system step preserves id-distinctness and the counter balance. -/
theorem stepOp_preserves (cfg : Config) (s s2 : Sys) (op : Op)
    (h : stepOp cfg s op = some s2)
    (hnd : idsNodup s.tab)
    (hinv : s.router.clients = heldCount s.tab) :
    idsNodup s2.tab ∧ s2.router.clients = heldCount s2.tab := by
  cases op with
  | routeOp cid =>
    simp only [stepOp] at h
    cases hf : tabFind s.tab cid with
    | none => rw [hf] at h; simp at h
    | some c =>
      rw [hf] at h
      simp only [] at h
      by_cases hg : c.route = none ∧ c.server = none
      · rw [if_pos hg] at h
        simp only [Option.some.injEq] at h
        have hc : c.id = cid := tabFind_id s.tab cid c hf
        have hfind : tabFind s.tab c.id = some c := by rw [hc]; exact hf
        rcases od_router_route_cases cfg s.router c with
          ⟨_, h2, h3, h4⟩ | ⟨_, h2, h3⟩
        · have hbal := heldCount_tabSet s.tab c
            (od_router_route cfg s.router c).2.2 h4 hfind hnd
          rw [← h]
          refine ⟨idsNodup_tabSet _ _ hnd, ?_⟩
          simp only
          rw [h2, hinv]
          simp only [hg.1, ne_eq, not_true_eq_false, if_false,
            Nat.add_zero] at hbal
          rw [if_pos h3] at hbal
          omega
        · have hbal := heldCount_tabSet s.tab c
            (od_router_route cfg s.router c).2.2 (by rw [h3]) hfind hnd
          rw [← h]
          refine ⟨idsNodup_tabSet _ _ hnd, ?_⟩
          simp only
          rw [h2, hinv]
          rw [h3] at hbal ⊢
          omega
      · rw [if_neg hg] at h; simp at h
  | unrouteOp cid =>
    simp only [stepOp] at h
    cases hf : tabFind s.tab cid with
    | none => rw [hf] at h; simp at h
    | some c =>
      rw [hf] at h
      simp only [] at h
      cases hu : od_router_unroute s.router c with
      | none => rw [hu] at h; simp at h
      | some p =>
        rw [hu] at h
        simp only [] at h
        obtain ⟨r2, c2⟩ := p
        simp only [Option.some.injEq] at h
        obtain ⟨hroute, hz, hcl, hc2r, hc2id⟩ :=
          od_router_unroute_cases s.router c r2 c2 hu
        have hc : c.id = cid := tabFind_id s.tab cid c hf
        have hfind : tabFind s.tab c.id = some c := by rw [hc]; exact hf
        have hbal := heldCount_tabSet s.tab c c2 hc2id hfind hnd
        rw [← h]
        refine ⟨idsNodup_tabSet _ _ hnd, ?_⟩
        simp only
        rw [if_pos hroute] at hbal
        rw [if_neg (by simp [hc2r])] at hbal
        omega
  | expireOp =>
    simp only [stepOp, Option.some.injEq] at h
    rw [← h]
    exact ⟨hnd, by rw [expire_preserves_clients]; exact hinv⟩
  | gcOp =>
    simp only [stepOp, Option.some.injEq] at h
    rw [← h]
    exact ⟨hnd, by rw [gc_preserves_clients]; exact hinv⟩
  | cancelOp k =>
    simp only [stepOp, Option.some.injEq] at h
    rw [← h]
    exact ⟨hnd, hinv⟩

/-- C2: for every sequence of router operations run from a table of
distinct clients whose counter balances, the balance persists: after every
prefix, `router.clients` equals the number of clients currently held
between a successful `route` and its matching `unroute` — the counter is
incremented exactly by each `route` that returns `OK`, decremented exactly
by each `unroute`, and changed by no other operation (`expire`, `gc` and
`cancel` steps leave it untouched). -/
theorem router_clients_balanced (cfg : Config) (ops : List Op)
    (s0 s : Sys)
    (hnd : idsNodup s0.tab)
    (hinv : s0.router.clients = heldCount s0.tab)
    (hrun : runOps cfg s0 ops = some s) :
    s.router.clients = heldCount s.tab := by
  induction ops generalizing s0 with
  | nil =>
    simp only [runOps, Option.some.injEq] at hrun
    rw [← hrun]
    exact hinv
  | cons op rest ih =>
    simp only [runOps] at hrun
    cases hstep : stepOp cfg s0 op with
    | none => rw [hstep] at hrun; simp at hrun
    | some s1 =>
      rw [hstep] at hrun
      obtain ⟨hnd1, hinv1⟩ := stepOp_preserves cfg s0 s1 op hstep hnd hinv
      exact ih s1 hnd1 hinv1 hrun

/-- C2 witness: the balance theorem applied to a concrete five-step run —
route, expire, cancel, unroute, gc — ending with a zero counter and no
held clients. -/
theorem router_clients_balanced_witness :
    idsNodup sysDemo.tab ∧
    runOps cfg0 sysDemo opsDemo = some sysEnd ∧
    sysEnd.router.clients = heldCount sysEnd.tab :=
  ⟨by unfold idsNodup; decide, by decide,
   router_clients_balanced cfg0 opsDemo sysDemo sysEnd
     (by unfold idsNodup; decide) (by decide) (by decide)⟩

/-- C10 witness: unrouting a never-routed client and unrouting a client
still attached to server 3 both violate an assertion. -/
theorem unroute_requires_routed_detached_witness :
    od_router_unroute { rules := [ruleA], routes := [], clients := 1 }
        clientA = none ∧
    od_router_unroute { rules := [ruleA], routes := [], clients := 1 }
        { clientA with route := some (idA, 0), server := some 3 } = none :=
  ⟨unroute_requires_routed_detached _ clientA (Or.inl rfl),
   unroute_requires_routed_detached _
     { clientA with route := some (idA, 0), server := some 3 }
     (Or.inr (by decide))⟩

end Odyssey
